import Mathlib

/-!
Shallow embedding of the job-execution and log-streaming core of
`src/pipeline_manager.py` (class `PipelinePanel`): the severity classifier
(`_classify_line`), the worker thread (`_pipeline_worker`), the queue poller
(`_poll_queue`), run control (`_run_pipeline`, `_stop_pipeline`) and the
completion handler (`_on_pipeline_finished`).

Python strings are Lean `String`s; Python `None` inside a value that may also
be a string/int is `Option`.  Console (`tkinter`) rendering is elided; what a
method writes to the console is returned as explicit `(text, tag)` data where
a claim depends on it.
-/

namespace PipelineManager

/-- Python `needle in hay` on strings: substring containment test. -/
def pyIn (needle hay : String) : Bool :=
  decide (needle.data <:+: hay.data)

/-- Python `s.lower()` as used on pipeline output (ASCII lowercasing,
character by character). -/
def pyLower (s : String) : String :=
  ⟨s.data.map Char.toLower⟩

/-- Python `s.startswith(pre)`. -/
def pyStartsWith (s pre : String) : Bool :=
  pre.data.isPrefixOf s.data

/-- Python `s.rstrip()`: drop trailing whitespace, character by character. -/
def pyRstrip (s : String) : String :=
  ⟨(s.data.reverse.dropWhile Char.isWhitespace).reverse⟩

/-- Keyword list of the first branch of `_classify_line` (line 688). -/
def errorKeywords : List String :=
  ["error", "failed", "exception", "traceback", "exit code"]

/-- Keyword list of the second branch of `_classify_line` (line 690). -/
def warningKeywords : List String :=
  ["warning", "warn", "not found", "skipped"]

/-- Keyword list of the third branch of `_classify_line` (line 692). -/
def successKeywords : List String :=
  ["done", "complete", "success", "finished", "merged"]

/-- Keyword list of the fourth branch of `_classify_line` (line 694). -/
def infoKeywords : List String :=
  ["step", "starting", "processing", "importing", "exporting"]

/-- `PipelinePanel._classify_line` (lines 686-698).  Returns the console tag
string: `"error"`, `"warning"`, `"success"`, `"info"`, `"accent"` (header
lines) or `"normal"` (plain lines). -/
def classify_line (line : String) : String :=
  let l := pyLower line
  if errorKeywords.any (fun x => pyIn x l) then "error"
  else if warningKeywords.any (fun x => pyIn x l) then "warning"
  else if successKeywords.any (fun x => pyIn x l) then "success"
  else if infoKeywords.any (fun x => pyIn x l) then "info"
  else if pyStartsWith line "=" || pyStartsWith line "-" then "accent"
  else "normal"

/-- The `subprocess.Popen` object as the panel observes it: only its
`returncode` attribute matters (`none` models Python `None`, i.e. exit status
not yet collected). -/
structure Proc where
  returncode : Option Int
deriving DecidableEq

/-- What the spawned process / its stream does during one run, as seen by
`_pipeline_worker`'s `try` block:
* `fileNotFound msg` — `Popen` raises `FileNotFoundError(msg)`;
* `spawnExn msg` — `Popen` raises some other exception;
* `completes lines code` — `Popen` succeeds, `iter(stdout.readline, "")`
  yields `lines` until the empty string, `wait()` returns `code`;
* `readError linesRead msg` — `Popen` succeeds, the read loop yields
  `linesRead` and then raises an exception with message `msg` (so `wait()` is
  never reached and `returncode` stays `None`). -/
inductive ProcBehavior where
  | fileNotFound (msg : String)
  | spawnExn (msg : String)
  | completes (lines : List String) (exitCode : Int)
  | readError (linesRead : List String) (msg : String)

/-- `PipelinePanel._pipeline_worker` (lines 819-844).  `prior` is the value of
`self._process` before the run (it is only overwritten if `Popen` returns).
Result: the items put on `self._log_queue`, in order (`none` is the Python
`None` sentinel from line 844), and the final value of `self._process`.
The read loop `iter(self._process.stdout.readline, "")` stops at the first
empty string, hence the `takeWhile`; every yielded line is non-empty, so the
`if line:` guard always passes for them. -/
def pipeline_worker (prior : Option Proc) :
    ProcBehavior → List (Option String) × Option Proc
  | .fileNotFound msg =>
      ([some ("ERROR: Could not start process: " ++ msg), Option.none], prior)
  | .spawnExn msg =>
      ([some ("ERROR: " ++ msg), Option.none], prior)
  | .completes lines code =>
      ((lines.takeWhile (fun l => l != "")).map some ++ [Option.none],
        some ⟨some code⟩)
  | .readError linesRead msg =>
      ((linesRead.takeWhile (fun l => l != "")).map some
         ++ [some ("ERROR: " ++ msg), Option.none],
        some ⟨Option.none⟩)

/-- One invocation of `PipelinePanel._poll_queue`'s drain loop (lines 744-756)
on the current queue contents: repeatedly `get_nowait()`; a `None` item breaks
the loop and triggers `_on_pipeline_finished`; any other item is logged as
`(item.rstrip(), _classify_line(item))`; an empty queue raises `queue.Empty`,
which is swallowed.  Result: the console lines written, whether
`_on_pipeline_finished` was triggered, and the items left in the queue. -/
def poll_queue : List (Option String) →
    List (String × String) × Bool × List (Option String)
  | [] => ([], false, [])
  | Option.none :: rest => ([], true, rest)
  | some item :: rest =>
      let r := poll_queue rest
      ((pyRstrip item, classify_line item) :: r.1, r.2.1, r.2.2)

/-- The run-control state of `PipelinePanel` that outlives a single method
call: `self._running`, `self._process`, the status label text (set through
`_set_status`; `"IDLE"` initially, line 532), and — as an explicit counter —
how many worker threads have been started (`self._thread.start()`,
line 817). -/
structure PanelState where
  running : Bool
  process : Option Proc
  status : String
  threadsStarted : Nat
deriving DecidableEq

/-- The panel state after `__init__` (lines 505-511, 532): not running, no
process, status label `"IDLE"`, no worker thread started. -/
def initialPanel : PanelState :=
  { running := false, process := Option.none, status := "IDLE",
    threadsStarted := 0 }

/-- `PipelinePanel._run_pipeline` (lines 791-817).  `if self._running: return`
guards re-entry; otherwise `_running` is set, the status label becomes
`"RUNNING"` and a worker thread is started.  `Popen` itself happens later, on
the worker thread. -/
def run_pipeline (s : PanelState) : PanelState :=
  if s.running then s
  else
    { s with
      running := true
      status := "RUNNING"
      threadsStarted := s.threadsStarted + 1 }

/-- `PipelinePanel._stop_pipeline` (lines 846-857).  If a process exists and
`poll()` is `None` (still alive), it logs a warning line and issues a
best-effort process-tree kill (`taskkill /F /T` or `terminate()`).  It
mutates none of the panel's run-control fields.  Result: the (unchanged)
panel state, whether a kill was issued, and the console lines written. -/
def stop_pipeline (s : PanelState) :
    PanelState × Bool × List (String × String) :=
  match s.process with
  | some p =>
      if p.returncode = Option.none then
        (s, true, [("Stopping pipeline (terminating process tree)...",
                     "warning")])
      else (s, false, [])
  | Option.none => (s, false, [])

/-- Line 870: `exit_code = self._process.returncode if self._process else -1`.
The result is an `Option Int` because `returncode` may be Python `None`. -/
def finished_exit_code (process : Option Proc) : Option Int :=
  match process with
  | some p => p.returncode
  | Option.none => some (-1)

/-- Python `str(exit_code)` for the message on line 881. -/
def pyStr : Option Int → String
  | Option.none => "None"
  | some n => toString n

/-- The outcome line `_on_pipeline_finished` logs (lines 877-882). -/
def finished_message (process : Option Proc) : String :=
  if finished_exit_code process = some 0 then
    "✅  Pipeline completed successfully"
  else
    "❌  Pipeline exited with code " ++ pyStr (finished_exit_code process)

/-- `PipelinePanel._on_pipeline_finished` (lines 859-887): clears `_running`
and sets the status label to `"COMPLETE"` exactly when the exit code equals
`0`, and to `"FAILED"` otherwise (`None` and `-1` both compare unequal to
`0`). -/
def on_pipeline_finished (s : PanelState) : PanelState :=
  { s with running := false,
           status := if finished_exit_code s.process = some 0 then "COMPLETE"
                     else "FAILED" }

/-- One whole run, as the source sequences it: `_run_pipeline` starts the
worker thread; the worker behaves as `b`, filling the queue and updating
`self._process`; the `_poll_queue` loop drains the queue; the `None` sentinel
triggers `_on_pipeline_finished`.  Result: the final panel state and the
console lines drained from the queue. -/
def complete_run (s : PanelState) (b : ProcBehavior) :
    PanelState × List (String × String) :=
  let s1 := run_pipeline s
  let w := pipeline_worker s1.process b
  let d := poll_queue w.1
  let s2 : PanelState := { s1 with process := w.2 }
  (if d.2.1 then on_pipeline_finished s2 else s2, d.1)

end PipelineManager

namespace PipelineManager

theorem takeWhile_of_forall {α : Type} (p : α → Bool) (xs : List α)
    (h : ∀ x ∈ xs, p x = true) : xs.takeWhile p = xs := by
  induction xs with
  | nil => rfl
  | cons x xs ih =>
      rw [List.takeWhile_cons, if_pos (h x (List.mem_cons_self x xs)),
        ih (fun y hy => h y (List.mem_cons_of_mem x hy))]

theorem poll_queue_map_some (xs : List String) (q : List (Option String)) :
    poll_queue (xs.map some ++ Option.none :: q) =
      (xs.map (fun l => (pyRstrip l, classify_line l)), true, q) := by
  induction xs with
  | nil => rfl
  | cons x xs ih => simp [poll_queue, ih]

theorem poll_queue_map_some_only (xs : List String) :
    poll_queue (xs.map some) =
      (xs.map (fun l => (pyRstrip l, classify_line l)), false, []) := by
  induction xs with
  | nil => rfl
  | cons x xs ih => simp [poll_queue, ih]

theorem count_none_map_some (xs : List String) :
    (xs.map some).count (Option.none : Option String) = 0 := by
  rw [List.count_eq_zero]
  simp

theorem classify_append_error (pre rest : String)
    (h : pyIn "error" (pyLower pre) = true) :
    classify_line (pre ++ rest) = "error" := by
  have hh : pyIn "error" (pyLower (pre ++ rest)) = true := by
    unfold pyIn at h ⊢
    rw [decide_eq_true_iff] at h ⊢
    have hd : (pyLower (pre ++ rest)).data =
        (pyLower pre).data ++ (pyLower rest).data := by
      simp [pyLower, String.data_append, List.map_append]
    rw [hd]
    exact h.trans ⟨[], (pyLower rest).data, by simp⟩
  simp [classify_line, errorKeywords, hh]

theorem pyStartsWith_append (pre rest s : String)
    (h : pyStartsWith pre s = true) : pyStartsWith (pre ++ rest) s = true := by
  unfold pyStartsWith at h ⊢
  rw [ List.isPrefixOf_iff_prefix] at h ⊢
  rw [String.data_append]
  exact h.trans (List.prefix_append _ _)

theorem worker_last_sentinel (prior : Option Proc) (b : ProcBehavior) :
    ((pipeline_worker prior b).1).getLast? = some Option.none := by
  cases b with
  | fileNotFound msg => rfl
  | spawnExn msg => rfl
  | completes lines c =>
      show ((lines.takeWhile (fun l => l != "")).map some
          ++ [Option.none]).getLast? = some Option.none
      rw [List.getLast?_concat]
  | readError lines msg =>
      show ((lines.takeWhile (fun l => l != "")).map some
          ++ [some ("ERROR: " ++ msg), Option.none]).getLast? = some Option.none
      rw [show [some ("ERROR: " ++ msg), (Option.none : Option String)] =
            [some ("ERROR: " ++ msg)] ++ [Option.none] from rfl,
        ← List.append_assoc, List.getLast?_concat]

end PipelineManager

namespace PipelineManager

/-- A panel state mid-run: running, one worker thread started, live process
whose exit status has not yet been collected (`poll()` returns `None`). -/
def runningPanel : PanelState :=
  { running := true, process := some ⟨Option.none⟩, status := "RUNNING",
    threadsStarted := 1 }

/-- The same mid-run panel once the process has terminated with exit
status 1 (the usual result of `taskkill /F /T`). -/
def reapedPanel : PanelState :=
  { running := true, process := some ⟨some 1⟩, status := "RUNNING",
    threadsStarted := 1 }

/-- A panel state after an earlier run completed successfully: idle again,
but `self._process` still holds the previous run's process object with
collected returncode `0`. -/
def restartedPanel : PanelState :=
  { running := false, process := some ⟨some 0⟩, status := "COMPLETE",
    threadsStarted := 1 }

/-- Claim C6: `_classify_line` is a pure function using case-insensitive
substring matching with fixed priority error > warning > success > info >
header (tag `"accent"`) > plain (tag `"normal"`); the six spec examples
classify as stated, and the last two conjuncts show that the first category
in the priority order wins even when a lower-priority keyword occurs earlier
in the text. -/
theorem classify_line_spec_examples :
    classify_line "ERROR: file not found" = "error" ∧
    classify_line "WARNING: skipped 3 files" = "warning" ∧
    classify_line "Done! Finished in 12s" = "success" ∧
    classify_line "Step 2: importing mesh batch" = "info" ∧
    classify_line "============================" = "accent" ∧
    classify_line "hello world" = "normal" ∧
    classify_line "Import done, but with one error" = "error" ∧
    classify_line "Warning: job done" = "warning" := by
  decide

/-- Claim C8: one `_poll_queue` pass over an empty queue writes no console
lines, triggers no completion and leaves nothing pending (the `queue.Empty`
branch returns at once); and a pass over any queue hands back at most the
items already buffered — it never waits for more. -/
theorem poll_queue_empty_immediate :
    poll_queue [] = ([], false, []) ∧
    ∀ q : List (Option String), (poll_queue q).1.length ≤ q.length := by
  refine ⟨rfl, ?_⟩
  intro q
  induction q with
  | nil => simp [poll_queue]
  | cons h t ih =>
      cases h with
      | none => simp [poll_queue]
      | some v =>
          simp only [poll_queue, List.length_cons]
          omega

/-- Claim C4: `_run_pipeline` invoked while `_running` is true returns via
the re-entry guard: the panel state is unchanged, no worker thread is
started, hence no second process is ever spawned and at most one run is
active. -/
theorem run_pipeline_while_running (s : PanelState) (h : s.running = true) :
    run_pipeline s = s ∧
    (run_pipeline s).threadsStarted = s.threadsStarted := by
  unfold run_pipeline
  rw [if_pos h]
  exact ⟨rfl, rfl⟩

/-- Concrete instantiation of `run_pipeline_while_running` on a mid-run
panel state. -/
theorem run_pipeline_while_running_witness :
    runningPanel.running = true ∧
    (run_pipeline runningPanel = runningPanel ∧
      (run_pipeline runningPanel).threadsStarted =
        runningPanel.threadsStarted) :=
  ⟨rfl, run_pipeline_while_running runningPanel rfl⟩

end PipelineManager

namespace PipelineManager

/-- Claim C1 counterexample: with a live process mid-run, `_stop_pipeline`
issues the tree kill but records nothing — the panel state is exactly what it
was — and when the killed process's exit status 1 reaches
`_on_pipeline_finished` the status label becomes `"FAILED"`; no cancelled
outcome exists anywhere in the panel. -/
theorem stop_reports_failed_counterexample :
    (stop_pipeline runningPanel).1 = runningPanel ∧
    (stop_pipeline runningPanel).2.1 = true ∧
    (on_pipeline_finished reapedPanel).status = "FAILED" := by
  decide

/-- Claim C1 amended: `_stop_pipeline` never mutates the panel's run-control
state — in particular it records no cancellation flag — and
`_on_pipeline_finished` classifies purely by exit code: its status is always
`"COMPLETE"` or `"FAILED"` (there is no cancelled terminal state), and any
nonzero exit code, such as that of a killed process tree, is reported
`"FAILED"`. -/
theorem stop_no_flag_then_failed (s s' s'' : PanelState) (c : Int)
    (hc : c ≠ 0) (hp : s''.process = some ⟨some c⟩) :
    (stop_pipeline s).1 = s ∧
    ((on_pipeline_finished s').status = "COMPLETE" ∨
      (on_pipeline_finished s').status = "FAILED") ∧
    (on_pipeline_finished s'').status = "FAILED" := by
  refine ⟨?_, ?_, ?_⟩
  · unfold stop_pipeline
    rcases s with ⟨r, p, st, t⟩
    cases p with
    | none => rfl
    | some q => dsimp only; split <;> rfl
  · unfold on_pipeline_finished
    dsimp only
    split
    · exact Or.inl rfl
    · exact Or.inr rfl
  · unfold on_pipeline_finished
    rw [hp]
    dsimp only
    rw [if_neg]
    simp [finished_exit_code, hc]

/-- Concrete instantiation of `stop_no_flag_then_failed`: a stop issued
mid-run, the process tree killed with exit status 1. -/
theorem stop_no_flag_then_failed_witness :
    ((1 : Int) ≠ 0 ∧ reapedPanel.process = some ⟨some 1⟩) ∧
    ((stop_pipeline runningPanel).1 = runningPanel ∧
      ((on_pipeline_finished reapedPanel).status = "COMPLETE" ∨
        (on_pipeline_finished reapedPanel).status = "FAILED") ∧
      (on_pipeline_finished reapedPanel).status = "FAILED") :=
  ⟨⟨by decide, rfl⟩,
    stop_no_flag_then_failed runningPanel reapedPanel reapedPanel 1
      (by decide) rfl⟩

end PipelineManager

namespace PipelineManager

/-- Claim C2 counterexample: from the initial panel, `_run_pipeline`
transitions to Running and starts a worker thread before any spawn attempt;
when `Popen` then raises `FileNotFoundError`, the failure is delivered as a
queue item (an `"ERROR: ..."` line plus the sentinel), not as a synchronous
start error — so the state does enter Running and a background thread is
created even though the executable cannot be spawned. -/
theorem spawn_failure_counterexample :
    (run_pipeline initialPanel).running = true ∧
    (run_pipeline initialPanel).threadsStarted = 1 ∧
    (pipeline_worker (run_pipeline initialPanel).process
        (.fileNotFound "[Errno 2] No such file or directory")).1 =
      [some "ERROR: Could not start process: [Errno 2] No such file or directory",
        Option.none] := by
  decide

/-- Claim C2 amended: when the executable cannot be spawned, `_run_pipeline`
still transitions to Running and starts one worker thread; the worker catches
the `FileNotFoundError`, enqueues a single `"ERROR: Could not start process:
..."` line (classified `"error"`) followed by the sentinel, and — because the
assignment on line 821 is skipped when `Popen` raises — leaves
`self._process` at its prior value; `_on_pipeline_finished` then clears the
running flag and reports the stale process's exit code: `-1` and `"FAILED"`
on a first run (no process object exists), but on a restart the previous
run's returncode — even `"COMPLETE"` with exit code `0` if the prior run had
succeeded.  The failure surfaces asynchronously through the queue, never
synchronously to the caller of `_run_pipeline`. -/
theorem spawn_failure_async (s : PanelState) (msg : String)
    (hs : s.running = false) :
    (run_pipeline s).running = true ∧
    (run_pipeline s).threadsStarted = s.threadsStarted + 1 ∧
    (pipeline_worker (run_pipeline s).process (.fileNotFound msg)).1 =
      [some ("ERROR: Could not start process: " ++ msg), Option.none] ∧
    classify_line ("ERROR: Could not start process: " ++ msg) = "error" ∧
    (pipeline_worker (run_pipeline s).process (.fileNotFound msg)).2 =
      s.process ∧
    (complete_run s (.fileNotFound msg)).1.running = false ∧
    finished_exit_code (complete_run s (.fileNotFound msg)).1.process =
      finished_exit_code s.process ∧
    (complete_run s (.fileNotFound msg)).1.status =
      (if finished_exit_code s.process = some 0 then "COMPLETE"
       else "FAILED") := by
  have hrun : run_pipeline s =
      { s with running := true, status := "RUNNING",
               threadsStarted := s.threadsStarted + 1 } := by
    unfold run_pipeline
    rw [if_neg]
    simp [hs]
  have hcls : classify_line ("ERROR: Could not start process: " ++ msg) =
      "error" :=
    classify_append_error "ERROR: Could not start process: " msg (by decide)
  refine ⟨by rw [hrun], by rw [hrun], by simp [pipeline_worker], hcls,
    by rw [hrun]; simp [pipeline_worker], ?_, ?_, ?_⟩ <;>
  · simp [complete_run, hrun, pipeline_worker, poll_queue,
      on_pipeline_finished]

end PipelineManager

namespace PipelineManager

/-- Concrete instantiation of `spawn_failure_async` on a restarted panel that
still holds the previous successful run's process object: the spawn-failed
run is reported with the stale exit code 0 (status `"COMPLETE"`). -/
theorem spawn_failure_async_witness :
    restartedPanel.running = false ∧
    ((run_pipeline restartedPanel).running = true ∧
      (run_pipeline restartedPanel).threadsStarted =
        restartedPanel.threadsStarted + 1 ∧
      (pipeline_worker (run_pipeline restartedPanel).process
          (.fileNotFound "missing.exe")).1 =
        [some ("ERROR: Could not start process: " ++ "missing.exe"),
          Option.none] ∧
      classify_line ("ERROR: Could not start process: " ++ "missing.exe") =
        "error" ∧
      (pipeline_worker (run_pipeline restartedPanel).process
          (.fileNotFound "missing.exe")).2 = restartedPanel.process ∧
      (complete_run restartedPanel (.fileNotFound "missing.exe")).1.running =
        false ∧
      finished_exit_code
          (complete_run restartedPanel
            (.fileNotFound "missing.exe")).1.process =
        finished_exit_code restartedPanel.process ∧
      (complete_run restartedPanel (.fileNotFound "missing.exe")).1.status =
        (if finished_exit_code restartedPanel.process = some 0 then
          "COMPLETE"
         else "FAILED")) :=
  ⟨rfl, spawn_failure_async restartedPanel "missing.exe" rfl⟩

/-- Claim C3: for a run that is started and never asked to stop, whose
process exits with code `c`: the drained sentinel triggers the completion
transition; the recorded exit code is exactly `c`; the final status label is
`"COMPLETE"` when `c = 0` and `"FAILED"` otherwise, with the logged outcome
message carrying that same code; and the run leaves the Running state. -/
theorem run_exit_outcome (s : PanelState) (lines : List String) (c : Int)
    (hs : s.running = false) :
    (complete_run s (.completes lines c)).1.status =
      (if c = 0 then "COMPLETE" else "FAILED") ∧
    finished_exit_code (complete_run s (.completes lines c)).1.process =
      some c ∧
    finished_message (complete_run s (.completes lines c)).1.process =
      (if c = 0 then "✅  Pipeline completed successfully"
       else "❌  Pipeline exited with code " ++ toString c) ∧
    (complete_run s (.completes lines c)).1.running = false := by
  have hfin : (complete_run s (.completes lines c)).1 =
      on_pipeline_finished
        { run_pipeline s with process := some ⟨some c⟩ } := by
    unfold complete_run
    simp only [pipeline_worker]
    rw [show ((lines.takeWhile (fun l => l != "")).map some ++
          [Option.none]) =
        ((lines.takeWhile (fun l => l != "")).map some ++
          Option.none :: []) from rfl, poll_queue_map_some]
    simp
  rw [hfin]
  by_cases hc : c = 0
  · subst hc
    simp [on_pipeline_finished, finished_exit_code, finished_message, pyStr]
  · simp [on_pipeline_finished, finished_exit_code, finished_message, pyStr,
      hc]

/-- Concrete instantiation of `run_exit_outcome`: a fresh panel, one output
line, exit code 2. -/
theorem run_exit_outcome_witness :
    initialPanel.running = false ∧
    ((complete_run initialPanel (.completes ["Merge done\n"] 2)).1.status =
        (if (2 : Int) = 0 then "COMPLETE" else "FAILED") ∧
      finished_exit_code
          (complete_run initialPanel
            (.completes ["Merge done\n"] 2)).1.process = some 2 ∧
      finished_message
          (complete_run initialPanel
            (.completes ["Merge done\n"] 2)).1.process =
        (if (2 : Int) = 0 then "✅  Pipeline completed successfully"
         else "❌  Pipeline exited with code " ++ toString (2 : Int)) ∧
      (complete_run initialPanel
          (.completes ["Merge done\n"] 2)).1.running = false) :=
  ⟨rfl, run_exit_outcome initialPanel ["Merge done\n"] 2 rfl⟩

end PipelineManager

namespace PipelineManager

/-- Claim C5: with `lines` the (non-empty) lines the child wrote, split
arbitrarily as `c₁ ++ c₂` into an earlier-drained and a later-drained
portion: the worker enqueues exactly `lines` in order followed by exactly one
sentinel; a drain over the whole stream returns exactly those lines in order,
each once (rstripped and classified), triggers the completion transition and
leaves the queue empty; the earlier partial drain triggers no completion, and
the two partial drains together return the same lines in the same order. -/
theorem worker_drain_exact (prior : Option Proc)
    (lines c₁ c₂ : List String) (c : Int)
    (h : ∀ l ∈ lines, l ≠ "") (hsplit : lines = c₁ ++ c₂) :
    (pipeline_worker prior (.completes lines c)).1 =
      lines.map some ++ [Option.none] ∧
    ((pipeline_worker prior (.completes lines c)).1).count Option.none = 1 ∧
    (poll_queue (pipeline_worker prior (.completes lines c)).1).1 =
      lines.map (fun l => (pyRstrip l, classify_line l)) ∧
    (poll_queue (pipeline_worker prior (.completes lines c)).1).2.1 = true ∧
    (poll_queue (pipeline_worker prior (.completes lines c)).1).2.2 = [] ∧
    (poll_queue (c₁.map some)).2.1 = false ∧
    (poll_queue (pipeline_worker prior (.completes lines c)).1).1 =
      (poll_queue (c₁.map some)).1 ++
        (poll_queue (c₂.map some ++ [Option.none])).1 := by
  have htw : lines.takeWhile (fun l => l != "") = lines :=
    takeWhile_of_forall _ _ (fun x hx => by simpa using h x hx)
  have hw : (pipeline_worker prior (.completes lines c)).1 =
      lines.map some ++ [Option.none] := by
    simp [pipeline_worker, htw]
  have hpoll : poll_queue (lines.map some ++ [Option.none]) =
      (lines.map (fun l => (pyRstrip l, classify_line l)), true, []) :=
    poll_queue_map_some lines []
  refine ⟨hw, ?_, ?_, ?_, ?_, ?_, ?_⟩
  · rw [hw, List.count_append, count_none_map_some]
    decide
  · rw [hw, hpoll]
  · rw [hw, hpoll]
  · rw [hw, hpoll]
  · rw [poll_queue_map_some_only]
  · rw [hw, hpoll, poll_queue_map_some_only, poll_queue_map_some, hsplit,
      List.map_append]

/-- Concrete instantiation of `worker_drain_exact`: two non-empty output
lines, drained one first and one later. -/
theorem worker_drain_exact_witness :
    ((∀ l ∈ ["Step 1\n", "All done\n"], l ≠ "") ∧
      (["Step 1\n", "All done\n"] : List String) =
        ["Step 1\n"] ++ ["All done\n"]) ∧
    ((pipeline_worker Option.none
        (.completes ["Step 1\n", "All done\n"] 0)).1 =
      (["Step 1\n", "All done\n"] : List String).map some ++ [Option.none] ∧
    ((pipeline_worker Option.none
        (.completes ["Step 1\n", "All done\n"] 0)).1).count Option.none = 1 ∧
    (poll_queue (pipeline_worker Option.none
        (.completes ["Step 1\n", "All done\n"] 0)).1).1 =
      (["Step 1\n", "All done\n"] : List String).map
        (fun l => (pyRstrip l, classify_line l)) ∧
    (poll_queue (pipeline_worker Option.none
        (.completes ["Step 1\n", "All done\n"] 0)).1).2.1 = true ∧
    (poll_queue (pipeline_worker Option.none
        (.completes ["Step 1\n", "All done\n"] 0)).1).2.2 = [] ∧
    (poll_queue ((["Step 1\n"] : List String).map some)).2.1 = false ∧
    (poll_queue (pipeline_worker Option.none
        (.completes ["Step 1\n", "All done\n"] 0)).1).1 =
      (poll_queue ((["Step 1\n"] : List String).map some)).1 ++
        (poll_queue ((["All done\n"] : List String).map some ++
          [Option.none])).1) :=
  ⟨⟨by decide, rfl⟩,
    worker_drain_exact Option.none ["Step 1\n", "All done\n"]
      ["Step 1\n"] ["All done\n"] 0 (by decide) rfl⟩

end PipelineManager

namespace PipelineManager

/-- Claim C7: a mid-stream read failure is handled as end-of-stream: the
worker appends one `"ERROR: ..."` line describing the failure — which
classifies as `"error"` — immediately followed by the single sentinel; the
drain then returns the lines read so far plus that error line, the sentinel
still triggers the completion transition, and `_on_pipeline_finished` reports
a `"FAILED"` terminal state (exit status uncollected) instead of aborting the
panel. -/
theorem read_error_end_of_stream (prior : Option Proc)
    (linesRead : List String) (msg : String) :
    (pipeline_worker prior (.readError linesRead msg)).1 =
      (linesRead.takeWhile (fun l => l != "")).map some ++
        [some ("ERROR: " ++ msg), Option.none] ∧
    classify_line ("ERROR: " ++ msg) = "error" ∧
    ((pipeline_worker prior (.readError linesRead msg)).1).count
      Option.none = 1 ∧
    (poll_queue (pipeline_worker prior (.readError linesRead msg)).1).1 =
      ((linesRead.takeWhile (fun l => l != "")) ++ ["ERROR: " ++ msg]).map
        (fun l => (pyRstrip l, classify_line l)) ∧
    (poll_queue (pipeline_worker prior (.readError linesRead msg)).1).2.1 =
      true ∧
    (pipeline_worker prior (.readError linesRead msg)).2 =
      some ⟨Option.none⟩ ∧
    ∀ r st t, (on_pipeline_finished ⟨r, some ⟨Option.none⟩, st, t⟩).status =
        "FAILED" ∧
      (on_pipeline_finished ⟨r, some ⟨Option.none⟩, st, t⟩).running =
        false := by
  have hw : (pipeline_worker prior (.readError linesRead msg)).1 =
      ((linesRead.takeWhile (fun l => l != "")) ++ ["ERROR: " ++ msg]).map
        some ++ [Option.none] := by
    simp [pipeline_worker]
  have hpoll := poll_queue_map_some
    ((linesRead.takeWhile (fun l => l != "")) ++ ["ERROR: " ++ msg]) []
  refine ⟨rfl, classify_append_error "ERROR: " msg (by decide), ?_, ?_, ?_,
    rfl, fun r st t => ⟨rfl, rfl⟩⟩
  · rw [hw, List.count_append, count_none_map_some]
    decide
  · rw [hw, hpoll]
  · rw [hw, hpoll]

/-- Claim C9 counterexample: the end-of-run marker that `_pipeline_worker`
pushes is the bare `None` value in the same generic queue that carries the
raw output strings — not a tagged event value — and `_poll_queue` detects
completion by an is-`None` test on the drained item. -/
theorem sentinel_is_raw_none_counterexample :
    (pipeline_worker Option.none (.completes ["Batch 1 done\n"] 0)).1 =
      [some "Batch 1 done\n", (Option.none : Option String)] ∧
    poll_queue [some "Batch 1 done\n", Option.none] =
      ([("Batch 1 done", "success")], true, []) := by
  decide

/-- Claim C9 amended: for every behavior of the process, the last item the
worker pushes is the untagged `None` sentinel, pushed into the same queue as
the data lines; `_poll_queue` reacts to a leading `None` by triggering the
completion handler, returning no lines and leaving the rest of the queue. -/
theorem sentinel_none_amended (prior : Option Proc) (b : ProcBehavior) :
    ((pipeline_worker prior b).1).getLast? = some Option.none ∧
    ∀ q : List (Option String),
      poll_queue (Option.none :: q) = ([], true, q) :=
  ⟨worker_last_sentinel prior b, fun _ => rfl⟩

/-- Claim C10: every exception path of the worker — `FileNotFoundError` at
spawn, any other spawn exception, or a mid-read exception — enqueues exactly
one line beginning with `"ERROR:"` directly followed by the sentinel, and on
the spawn paths leaves `self._process` at its prior value; when no process
object exists, `_on_pipeline_finished` computes exit code `-1` and reports
the `"FAILED"` outcome, so even a run whose process never spawned ends in
exactly one observable terminal state. -/
theorem worker_exception_error_line (prior : Option Proc) (msg : String)
    (linesRead : List String) :
    (pipeline_worker prior (.fileNotFound msg)).1 =
      [some ("ERROR: Could not start process: " ++ msg), Option.none] ∧
    pyStartsWith ("ERROR: Could not start process: " ++ msg) "ERROR:" =
      true ∧
    (pipeline_worker prior (.fileNotFound msg)).2 = prior ∧
    (pipeline_worker prior (.spawnExn msg)).1 =
      [some ("ERROR: " ++ msg), Option.none] ∧
    pyStartsWith ("ERROR: " ++ msg) "ERROR:" = true ∧
    (pipeline_worker prior (.spawnExn msg)).2 = prior ∧
    (pipeline_worker prior (.readError linesRead msg)).1 =
      (linesRead.takeWhile (fun l => l != "")).map some ++
        [some ("ERROR: " ++ msg), Option.none] ∧
    finished_exit_code Option.none = some (-1) ∧
    ∀ r st t, (on_pipeline_finished ⟨r, Option.none, st, t⟩).status =
      "FAILED" :=
  ⟨rfl,
    pyStartsWith_append "ERROR: Could not start process: " msg "ERROR:"
      (by decide),
    rfl, rfl,
    pyStartsWith_append "ERROR: " msg "ERROR:" (by decide),
    rfl, rfl, rfl, fun _ _ _ => rfl⟩

end PipelineManager
